import Mathlib

/-!
Shallow embedding of `src/src/server.py`: a small orchestration server with two
operations, `develop_and_create_project` and `create_notion_project_page`.

External effects (the Anthropic completion call, the GitHub repository and file
creation calls, and the Notion HTTP POST) are modelled as oracles supplied in a
`World` record; each oracle either raises (`Except.error`) or returns a value,
mirroring the fact that the Python code performs blocking calls that may throw.
Environment variables are an `Env` record of `Option String` values, with
Python truthiness (`None` and the empty string are falsy) modelled by `truthy`.
Each operation returns its Python result (or the exception it propagates)
together with the list of external requests it issued, so that claims about
request shapes and about which calls are attempted can be stated.
-/

/-- A raised Python exception, identified by a descriptive message. -/
structure Err where
  msg : String
deriving DecidableEq

/-- The exception raised by `response.json()` when the body is not valid JSON
(`requests.exceptions.JSONDecodeError`). -/
def jsonDecodeError : Err := { msg := "requests.exceptions.JSONDecodeError" }

/-- The body of an HTTP response as seen through `response.json()`:
either it fails to parse as JSON (so `.json()` raises), or it parses to a JSON
object whose optional `"url"` member is recorded (the only member the code
reads, via `.get("url", ...)` on line 135). -/
inductive ResponseBody where
  | malformed : ResponseBody
  | jsonObject : Option String → ResponseBody
deriving DecidableEq

/-- An HTTP response from `requests.post`: a status code and a body. -/
structure Response where
  status_code : Nat
  body : ResponseBody
deriving DecidableEq

/-- The process environment: the four variables read by the code
(`os.environ.get` returns `None` when a variable is unset). -/
structure Env where
  ANTHROPIC_API_KEY : Option String
  GITHUB_TOKEN : Option String
  NOTION_API_KEY : Option String
  NOTION_DATABASE_ID : Option String

/-- Python truthiness of an `os.environ.get` result: `None` and the empty
string are falsy, any other string is truthy. -/
def truthy : Option String → Bool
  | none => false
  | some s => !s.isEmpty

/-- The created-repository object; the code only reads its `html_url`
(lines 72 and 79). -/
structure Repo where
  html_url : String
deriving DecidableEq

/-- The keyword arguments of the `user.create_repo` call (lines 57-62).
`priv` stands for the Python keyword argument named after the access level,
which is a reserved word in Lean. -/
structure RepoRequest where
  name : String
  description : String
  priv : Bool
  auto_init : Bool
deriving DecidableEq

/-- The keyword arguments of the `repo.create_file` call (lines 65-69). -/
structure FileRequest where
  path : String
  message : String
  content : String
deriving DecidableEq

/-- One block of the Notion page body (`children`, lines 113-125): a
`heading_2` block or a `paragraph` block, each carrying its rich-text
content string. -/
inductive Block where
  | heading_2 : String → Block
  | paragraph : String → Block
deriving DecidableEq

/-- The Notion page-creation request (lines 94-132): the endpoint URL, the
header fields, and the fields of the `data` payload that the code sets —
parent database, `Name` title, `Status` status name, `GitHub` url property,
and the `children` body blocks. -/
structure NotionRequest where
  endpoint : String
  authorization : String
  content_type : String
  notion_version : String
  database_id : String
  title : String
  status_name : String
  github : String
  children : List Block
deriving DecidableEq

/-- An external request issued by the code, in issue order. -/
inductive Call where
  | claudeCall : String → Call
  | createRepo : RepoRequest → Call
  | createFile : FileRequest → Call
  | notionPost : NotionRequest → Call
deriving DecidableEq

/-- Whether an action is the Notion page-creation POST. -/
def isNotionPost : Call → Bool
  | Call.notionPost _ => true
  | _ => false

/-- Whether an action is a `repo.create_file` call. -/
def isCreateFile : Call → Bool
  | Call.createFile _ => true
  | _ => false

/-- Oracles for the four external calls. `claude` maps the prompt to the text
of the first content block of the completion (`response.content[0].text`,
line 51) or to a raised exception; `create_repo` and `create_file` are the two
GitHub calls; `notion_post` is `requests.post` on the Notion endpoint, which
either raises (network failure) or yields a `Response`. -/
structure World where
  claude : String → Except Err String
  create_repo : RepoRequest → Except Err Repo
  create_file : FileRequest → Except Err Unit
  notion_post : NotionRequest → Except Err Response

/-- The result dictionary of `develop_and_create_project` (lines 71-82):
`notion_url = none` models the absence of the `"notion_url"` key. -/
structure ProjResult where
  github_url : String
  spec : String
  status : String
  notion_url : Option String
deriving DecidableEq

/-- The f-string prompt sent to the completion API (lines 36-47). -/
def developPrompt (idea : String) : String :=
  "You are a product development expert. Take this idea and develop it into a comprehensive project specification.\n\nIdea: "
    ++ idea ++
  "\n\nPlease provide:\n1. Project Overview (2-3 sentences)\n2. Key Features (bullet points)\n3. Technical Architecture (brief description)\n4. Implementation Phases (3-5 phases)\n5. Success Metrics\n\nFormat this as a well-structured markdown document suitable for a README.md"

/-- The `user.create_repo` keyword arguments (lines 57-62): the project name,
a description built from the first 100 characters of the idea
(`f"Project: {idea[:100]}"`), a public repository, auto-initialized. -/
def repoRequest (idea project_name : String) : RepoRequest :=
  { name := project_name
    description := "Project: " ++ idea.take 100
    priv := false
    auto_init := true }

/-- The `repo.create_file` keyword arguments (lines 65-69). -/
def readmeRequest (developed_spec : String) : FileRequest :=
  { path := "README.md"
    message := "Initial project specification"
    content := developed_spec }

/-- The headers (lines 94-98) and `data` payload (lines 100-126) of the Notion
page-creation POST, as functions of the unwrapped credential strings and the
three inputs. -/
def notionRequest (notion_api_key notion_database_id idea project_name github_url : String) :
    NotionRequest :=
  { endpoint := "https://api.notion.com/v1/pages"
    authorization := "Bearer " ++ notion_api_key
    content_type := "application/json"
    notion_version := "2022-06-28"
    database_id := notion_database_id
    title := project_name
    status_name := "In Progress"
    github := github_url
    children := [Block.heading_2 "Project Idea", Block.paragraph idea] }

/-- Model of `create_notion_project_page` (lines 85-137). Reads the two Notion
environment variables; if either is falsy, returns the sentinel string without
issuing any request. Otherwise it POSTs the page-creation request; a raised
transport error propagates; on a 200 status it calls `response.json()` (which
raises on a malformed body) and extracts `"url"` with a fallback string; on
any other status it returns a diagnostic string embedding the status code. -/
def create_notion_project_page (env : Env) (w : World)
    (idea project_name github_url : String) : Except Err String × List Call :=
  let notion_api_key := env.NOTION_API_KEY
  let notion_database_id := env.NOTION_DATABASE_ID
  if !truthy notion_api_key || !truthy notion_database_id then
    (Except.ok "Notion integration not configured", [])
  else
    let data := notionRequest (notion_api_key.getD "") (notion_database_id.getD "")
      idea project_name github_url
    match w.notion_post data with
    | Except.error e => (Except.error e, [Call.notionPost data])
    | Except.ok response =>
      (if response.status_code = 200 then
        match response.body with
        | ResponseBody.malformed => Except.error jsonDecodeError
        | ResponseBody.jsonObject url => Except.ok (url.getD "Page created but URL not available")
      else
        Except.ok ("Error creating Notion page: " ++ toString response.status_code),
      [Call.notionPost data])

/-- Model of `develop_and_create_project` (lines 11-82). Calls the completion API, then
`user.create_repo`, then `repo.create_file`; any raised exception propagates
and aborts the invocation. It then builds the result dictionary with
`status = "success"` and, when `create_notion_page` is set and
`NOTION_API_KEY` is truthy (line 78), calls `create_notion_project_page` and
stores its string under `"notion_url"`. -/
def develop_and_create_project (env : Env) (w : World) (idea project_name : String)
    (create_notion_page : Bool := true) : Except Err ProjResult × List Call :=
  match w.claude (developPrompt idea) with
  | Except.error e => (Except.error e, [Call.claudeCall (developPrompt idea)])
  | Except.ok developed_spec =>
    match w.create_repo (repoRequest idea project_name) with
    | Except.error e =>
      (Except.error e,
       [Call.claudeCall (developPrompt idea), Call.createRepo (repoRequest idea project_name)])
    | Except.ok repo =>
      match w.create_file (readmeRequest developed_spec) with
      | Except.error e =>
        (Except.error e,
         [Call.claudeCall (developPrompt idea), Call.createRepo (repoRequest idea project_name),
          Call.createFile (readmeRequest developed_spec)])
      | Except.ok _ =>
        let result : ProjResult :=
          { github_url := repo.html_url
            spec := developed_spec
            status := "success"
            notion_url := none }
        if create_notion_page && truthy env.NOTION_API_KEY then
          match create_notion_project_page env w idea project_name repo.html_url with
          | (Except.error e, acts) =>
            (Except.error e,
             [Call.claudeCall (developPrompt idea),
              Call.createRepo (repoRequest idea project_name),
              Call.createFile (readmeRequest developed_spec)] ++ acts)
          | (Except.ok notion_page, acts) =>
            (Except.ok { result with notion_url := some notion_page },
             [Call.claudeCall (developPrompt idea),
              Call.createRepo (repoRequest idea project_name),
              Call.createFile (readmeRequest developed_spec)] ++ acts)
        else
          (Except.ok result,
           [Call.claudeCall (developPrompt idea),
            Call.createRepo (repoRequest idea project_name),
            Call.createFile (readmeRequest developed_spec)])

/-! ### Concrete environments and worlds used as test fixtures -/

/-- An environment with every variable set to a non-empty value. -/
def envFull : Env :=
  { ANTHROPIC_API_KEY := some "ak"
    GITHUB_TOKEN := some "gt"
    NOTION_API_KEY := some "nk"
    NOTION_DATABASE_ID := some "ndb" }

/-- An environment in which both Notion variables are unset. -/
def envNoNotion : Env :=
  { ANTHROPIC_API_KEY := some "ak"
    GITHUB_TOKEN := some "gt"
    NOTION_API_KEY := none
    NOTION_DATABASE_ID := none }

/-- An environment in which `NOTION_API_KEY` is set to the empty string. -/
def envEmptyKey : Env :=
  { ANTHROPIC_API_KEY := some "ak"
    GITHUB_TOKEN := some "gt"
    NOTION_API_KEY := some ""
    NOTION_DATABASE_ID := some "ndb" }

/-- An environment with the Notion key set but the database id unset. -/
def envKeyOnly : Env :=
  { ANTHROPIC_API_KEY := some "ak"
    GITHUB_TOKEN := some "gt"
    NOTION_API_KEY := some "nk"
    NOTION_DATABASE_ID := none }

/-- Concrete created repository. -/
def repoOK : Repo := { html_url := "https://github.com/u/hydrate-bot" }

/-- Concrete 200 response with a JSON body carrying a page URL. -/
def respOK : Response :=
  { status_code := 200, body := ResponseBody.jsonObject (some "https://notion.so/page1") }

/-- Concrete 500 response with a JSON body lacking a url member. -/
def resp500 : Response := { status_code := 500, body := ResponseBody.jsonObject none }

/-- Concrete 201 response with a JSON body carrying a page URL. -/
def resp201 : Response :=
  { status_code := 201, body := ResponseBody.jsonObject (some "https://notion.so/page1") }

/-- Concrete duplicate-name error raised by `user.create_repo`. -/
def dupErr : Err := { msg := "GithubException: name already exists on this account" }

/-- A world in which every call succeeds and the Notion POST returns a 200
response with a JSON body carrying a page URL. -/
def wOK : World :=
  { claude := fun _ => Except.ok "SPEC"
    create_repo := fun _ => Except.ok repoOK
    create_file := fun _ => Except.ok ()
    notion_post := fun _ => Except.ok respOK }

/-- A world in which the Notion POST returns a 200 response whose body is not
valid JSON. -/
def wMalformed : World :=
  { wOK with notion_post := fun _ =>
      Except.ok { status_code := 200, body := ResponseBody.malformed } }

/-- A world in which the Notion POST returns status 500. -/
def w500 : World :=
  { wOK with notion_post := fun _ => Except.ok resp500 }

/-- A world in which the Notion POST returns status 201 with a JSON body
carrying a page URL. -/
def w201 : World :=
  { wOK with notion_post := fun _ => Except.ok resp201 }

/-- A world in which `user.create_repo` raises a duplicate-name error. -/
def wRepoFail : World :=
  { wOK with create_repo := fun _ => Except.error dupErr }

/-- The result dictionary of a fully successful run of `wOK` from `envFull`. -/
def rFull : ProjResult :=
  { github_url := "https://github.com/u/hydrate-bot"
    spec := "SPEC"
    status := "success"
    notion_url := some "https://notion.so/page1" }

/-- The result dictionary of a successful run in which the Notion step was
skipped: no `"notion_url"` key. -/
def rPlain : ProjResult :=
  { github_url := "https://github.com/u/hydrate-bot"
    spec := "SPEC"
    status := "success"
    notion_url := none }

/-- The three GitHub-side requests of a successful run on the fixture inputs
`"water"` and `"hydrate-bot"` in `wOK`. -/
def acts3 : List Call :=
  [Call.claudeCall (developPrompt "water"),
   Call.createRepo (repoRequest "water" "hydrate-bot"),
   Call.createFile (readmeRequest "SPEC")]

/-- The full request trace of a successful run with the Notion step included,
on the fixture inputs in `wOK` from `envFull`. -/
def acts4 : List Call :=
  acts3 ++ [Call.notionPost (notionRequest "nk" "ndb" "water" "hydrate-bot"
    "https://github.com/u/hydrate-bot")]

/-! ### Helper lemmas shared by several claims -/

/-- The Notion operation issues at most one external request, and that request
is the page-creation POST: its trace is empty (unconfigured) or a single
`notionPost`. -/
theorem notion_trace_cases (env : Env) (w : World) (idea project_name github_url : String) :
    (create_notion_project_page env w idea project_name github_url).snd = [] ∨
    ∃ q, (create_notion_project_page env w idea project_name github_url).snd =
      [Call.notionPost q] := by
  simp only [create_notion_project_page]
  split
  · exact Or.inl rfl
  · split
    · exact Or.inr ⟨_, rfl⟩
    · exact Or.inr ⟨_, rfl⟩

/-- The request trace of a run whose three fail-fast calls succeed: the
completion call, the repository creation, and the README commit, followed by
whatever the Notion step issued when its gate was taken. -/
theorem develop_snd (env : Env) (w : World) (idea project_name : String)
    (create_notion_page : Bool) (developed_spec : String) (repo : Repo)
    (hc : w.claude (developPrompt idea) = Except.ok developed_spec)
    (hr : w.create_repo (repoRequest idea project_name) = Except.ok repo)
    (hf : w.create_file (readmeRequest developed_spec) = Except.ok ()) :
    (develop_and_create_project env w idea project_name create_notion_page).snd =
      [Call.claudeCall (developPrompt idea), Call.createRepo (repoRequest idea project_name),
       Call.createFile (readmeRequest developed_spec)] ++
      (if create_notion_page && truthy env.NOTION_API_KEY then
        (create_notion_project_page env w idea project_name repo.html_url).snd
      else []) := by
  cases hb : (create_notion_page && truthy env.NOTION_API_KEY) with
  | false => simp [develop_and_create_project, hc, hr, hf, hb]
  | true =>
    rcases hn : create_notion_project_page env w idea project_name repo.html_url with ⟨res, acts⟩
    rcases res with e | s <;>
      simp [develop_and_create_project, hc, hr, hf, hb, hn]

/-! ### Claim theorems -/

/-- C3: every result dictionary returned by `develop_and_create_project` has
`status = "success"`; any failure in a required step propagates as a raised
exception instead of returning a result. -/
theorem develop_status_success (env : Env) (w : World) (idea project_name : String)
    (create_notion_page : Bool) (r : ProjResult) (acts : List Call)
    (h : develop_and_create_project env w idea project_name create_notion_page =
      (Except.ok r, acts)) :
    r.status = "success" := by
  simp only [develop_and_create_project] at h
  split at h
  · exact absurd h (by simp)
  split at h
  · exact absurd h (by simp)
  split at h
  · exact absurd h (by simp)
  split at h
  · split at h
    · exact absurd h (by simp)
    · rw [Prod.mk.injEq] at h
      obtain ⟨h1, -⟩ := h
      injection h1 with h1
      subst h1
      rfl
  · rw [Prod.mk.injEq] at h
    obtain ⟨h1, -⟩ := h
    injection h1 with h1
    subst h1
    rfl

/-- C3 witness: the all-success fixture run returns a result whose status is
the success marker. -/
theorem develop_status_success_witness : rFull.status = "success" :=
  develop_status_success envFull wOK "water" "hydrate-bot" true rFull acts4 rfl

/-- C4: with `create_notion_page = false` the returned result carries no
`notion_url` key, whatever the environment holds. -/
theorem flag_false_no_notion_url (env : Env) (w : World) (idea project_name : String)
    (r : ProjResult) (acts : List Call)
    (h : develop_and_create_project env w idea project_name false = (Except.ok r, acts)) :
    r.notion_url = none := by
  simp only [develop_and_create_project, Bool.false_and] at h
  split at h
  · exact absurd h (by simp)
  split at h
  · exact absurd h (by simp)
  split at h
  · exact absurd h (by simp)
  rw [if_neg (by simp)] at h
  rw [Prod.mk.injEq] at h
  obtain ⟨h1, -⟩ := h
  injection h1 with h1
  subst h1
  rfl

/-- C4 witness: with the flag off and a fully configured environment, the
fixture run returns the result without a `notion_url` key. -/
theorem flag_false_no_notion_url_witness : rPlain.notion_url = none :=
  flag_false_no_notion_url envFull wOK "water" "hydrate-bot" rPlain acts3 rfl

/-- C5: when `user.create_repo` raises, the exception propagates out of
`develop_and_create_project`, no result dictionary is produced, and the Notion
POST is never attempted. -/
theorem repo_failure_propagates (env : Env) (w : World) (idea project_name : String)
    (create_notion_page : Bool) (developed_spec : String) (e : Err)
    (hc : w.claude (developPrompt idea) = Except.ok developed_spec)
    (hr : w.create_repo (repoRequest idea project_name) = Except.error e) :
    develop_and_create_project env w idea project_name create_notion_page =
      (Except.error e,
       [Call.claudeCall (developPrompt idea),
        Call.createRepo (repoRequest idea project_name)]) ∧
    ((develop_and_create_project env w idea project_name create_notion_page).snd.filter
      isNotionPost) = [] := by
  have h : develop_and_create_project env w idea project_name create_notion_page =
      (Except.error e,
       [Call.claudeCall (developPrompt idea),
        Call.createRepo (repoRequest idea project_name)]) := by
    simp [develop_and_create_project, hc, hr]
  exact ⟨h, by rw [h]; rfl⟩

/-- C5 witness: the duplicate-name fixture raises out of the entry point after
just the completion call and the repository-creation attempt. -/
theorem repo_failure_propagates_witness :
    develop_and_create_project envFull wRepoFail "water" "hydrate-bot" true =
      (Except.error dupErr,
       [Call.claudeCall (developPrompt "water"),
        Call.createRepo (repoRequest "water" "hydrate-bot")]) ∧
    ((develop_and_create_project envFull wRepoFail "water" "hydrate-bot" true).snd.filter
      isNotionPost) = [] :=
  repo_failure_propagates envFull wRepoFail "water" "hydrate-bot" true "SPEC" dupErr rfl rfl

/-- C1 counterexample: with `create_notion_page = true` and both Notion
variables unset, the fixture run returns a result whose `notion_url` field is
absent (`none`), not the sentinel string the claim requires. -/
theorem absent_credentials_counterexample :
    (develop_and_create_project envNoNotion wOK "water" "hydrate-bot" true).fst =
      Except.ok rPlain ∧
    rPlain.notion_url ≠ some "Notion integration not configured" :=
  ⟨rfl, by simp [rPlain]⟩

/-- C1 amended: with `create_notion_page = true` and the three fail-fast calls
succeeding, an unset or empty `NOTION_API_KEY` still creates the repository
and commits the README but yields a result with no `notion_url` key at all;
the "not configured" sentinel appears as `notion_url` only when
`NOTION_API_KEY` is truthy while `NOTION_DATABASE_ID` is not. -/
theorem absent_credentials_amended (env : Env) (w : World) (idea project_name : String)
    (developed_spec : String) (repo : Repo)
    (hc : w.claude (developPrompt idea) = Except.ok developed_spec)
    (hr : w.create_repo (repoRequest idea project_name) = Except.ok repo)
    (hf : w.create_file (readmeRequest developed_spec) = Except.ok ()) :
    (truthy env.NOTION_API_KEY = false →
      develop_and_create_project env w idea project_name true =
        (Except.ok { github_url := repo.html_url, spec := developed_spec,
                     status := "success", notion_url := none },
         [Call.claudeCall (developPrompt idea),
          Call.createRepo (repoRequest idea project_name),
          Call.createFile (readmeRequest developed_spec)])) ∧
    (truthy env.NOTION_API_KEY = true → truthy env.NOTION_DATABASE_ID = false →
      develop_and_create_project env w idea project_name true =
        (Except.ok { github_url := repo.html_url, spec := developed_spec,
                     status := "success",
                     notion_url := some "Notion integration not configured" },
         [Call.claudeCall (developPrompt idea),
          Call.createRepo (repoRequest idea project_name),
          Call.createFile (readmeRequest developed_spec)])) := by
  constructor
  · intro hkey
    simp [develop_and_create_project, hc, hr, hf, hkey]
  · intro hkey hdb
    have hn : create_notion_project_page env w idea project_name repo.html_url =
        (Except.ok "Notion integration not configured", []) := by
      simp [create_notion_project_page, hdb]
    simp [develop_and_create_project, hc, hr, hf, hkey, hn]

/-- C1 amended witness: instantiated at the no-credentials fixture
environment. -/
theorem absent_credentials_amended_witness :
    (truthy envNoNotion.NOTION_API_KEY = false →
      develop_and_create_project envNoNotion wOK "water" "hydrate-bot" true =
        (Except.ok { github_url := repoOK.html_url, spec := "SPEC",
                     status := "success", notion_url := none },
         [Call.claudeCall (developPrompt "water"),
          Call.createRepo (repoRequest "water" "hydrate-bot"),
          Call.createFile (readmeRequest "SPEC")])) ∧
    (truthy envNoNotion.NOTION_API_KEY = true →
      truthy envNoNotion.NOTION_DATABASE_ID = false →
      develop_and_create_project envNoNotion wOK "water" "hydrate-bot" true =
        (Except.ok { github_url := repoOK.html_url, spec := "SPEC",
                     status := "success",
                     notion_url := some "Notion integration not configured" },
         [Call.claudeCall (developPrompt "water"),
          Call.createRepo (repoRequest "water" "hydrate-bot"),
          Call.createFile (readmeRequest "SPEC")])) :=
  absent_credentials_amended envNoNotion wOK "water" "hydrate-bot" "SPEC" repoOK rfl rfl rfl

/-- C2 counterexample: with both Notion variables configured and the POST
returning a 200 response whose body is not valid JSON, the `response.json()`
call raises, so `create_notion_project_page` propagates an exception rather
than returning a string. -/
theorem notion_never_raises_counterexample :
    (create_notion_project_page envFull wMalformed "water" "hydrate-bot"
      "https://github.com/u/hydrate-bot").fst = Except.error jsonDecodeError :=
  rfl

/-- C2 amended: provided the POST itself does not raise and every 200 response
carries a body that parses as JSON, `create_notion_project_page` returns a
string and never raises: missing configuration, a non-success status, and a
JSON body lacking a url member are each turned into a descriptive string. -/
theorem notion_never_raises_amended (env : Env) (w : World)
    (idea project_name github_url : String)
    (hpost : ∀ q, ∃ resp, w.notion_post q = Except.ok resp ∧
      (resp.status_code = 200 → resp.body ≠ ResponseBody.malformed)) :
    ∃ s, (create_notion_project_page env w idea project_name github_url).fst =
      Except.ok s := by
  by_cases hg : (!truthy env.NOTION_API_KEY || !truthy env.NOTION_DATABASE_ID) = true
  · exact ⟨"Notion integration not configured", by simp [create_notion_project_page, hg]⟩
  · obtain ⟨resp, hq, hmal⟩ := hpost (notionRequest (env.NOTION_API_KEY.getD "")
      (env.NOTION_DATABASE_ID.getD "") idea project_name github_url)
    by_cases hs : resp.status_code = 200
    · rcases hb : resp.body with _ | u
      · exact absurd hb (hmal hs)
      · exact ⟨u.getD "Page created but URL not available",
          by simp [create_notion_project_page, hg, hq, hs, hb]⟩
    · exact ⟨"Error creating Notion page: " ++ toString resp.status_code,
        by simp [create_notion_project_page, hg, hq, hs]⟩

/-- C2 amended witness: instantiated at the configured fixture with a
well-formed 200 response. -/
theorem notion_never_raises_amended_witness :
    ∃ s, (create_notion_project_page envFull wOK "water" "hydrate-bot"
      "https://github.com/u/hydrate-bot").fst = Except.ok s :=
  notion_never_raises_amended envFull wOK "water" "hydrate-bot"
    "https://github.com/u/hydrate-bot"
    (fun _ => ⟨respOK, rfl, fun _ => by simp [respOK]⟩)

/-- C6: with the tracking step enabled and both Notion variables truthy, a
non-success HTTP status from the POST still lets the entry point return a
result with the success status, whose `notion_url` is the diagnostic string
embedding the status code. -/
theorem nonsuccess_status_soft_fail (env : Env) (w : World) (idea project_name : String)
    (developed_spec : String) (repo : Repo) (resp : Response)
    (hkey : truthy env.NOTION_API_KEY = true)
    (hdb : truthy env.NOTION_DATABASE_ID = true)
    (hc : w.claude (developPrompt idea) = Except.ok developed_spec)
    (hr : w.create_repo (repoRequest idea project_name) = Except.ok repo)
    (hf : w.create_file (readmeRequest developed_spec) = Except.ok ())
    (hp : w.notion_post (notionRequest (env.NOTION_API_KEY.getD "")
      (env.NOTION_DATABASE_ID.getD "") idea project_name repo.html_url) = Except.ok resp)
    (hs : resp.status_code ≠ 200) :
    (develop_and_create_project env w idea project_name true).fst =
      Except.ok { github_url := repo.html_url, spec := developed_spec,
                  status := "success",
                  notion_url := some ("Error creating Notion page: " ++
                    toString resp.status_code) } := by
  have hn : create_notion_project_page env w idea project_name repo.html_url =
      (Except.ok ("Error creating Notion page: " ++ toString resp.status_code),
       [Call.notionPost (notionRequest (env.NOTION_API_KEY.getD "")
         (env.NOTION_DATABASE_ID.getD "") idea project_name repo.html_url)]) := by
    simp [create_notion_project_page, hkey, hdb, hp, hs]
  simp [develop_and_create_project, hc, hr, hf, hkey, hn]

/-- C6 witness: instantiated at the fixture whose Notion POST returns 500. -/
theorem nonsuccess_status_soft_fail_witness :
    (develop_and_create_project envFull w500 "water" "hydrate-bot" true).fst =
      Except.ok { github_url := repoOK.html_url, spec := "SPEC",
                  status := "success",
                  notion_url := some ("Error creating Notion page: " ++
                    toString resp500.status_code) } :=
  nonsuccess_status_soft_fail envFull w500 "water" "hydrate-bot" "SPEC" repoOK resp500
    rfl rfl rfl rfl rfl rfl (by simp [resp500])

/-- C9: with `create_notion_page = true` but `NOTION_API_KEY` unset or empty,
the returned result has no `notion_url` key and the Notion POST is never
issued: the gate on line 78 is checked before `create_notion_project_page`
is called. -/
theorem unset_key_skips_notion (env : Env) (w : World) (idea project_name : String)
    (r : ProjResult) (acts : List Call)
    (hkey : truthy env.NOTION_API_KEY = false)
    (h : develop_and_create_project env w idea project_name true = (Except.ok r, acts)) :
    r.notion_url = none ∧ acts.filter isNotionPost = [] := by
  simp only [develop_and_create_project, hkey, Bool.and_false] at h
  split at h
  · exact absurd h (by simp)
  split at h
  · exact absurd h (by simp)
  split at h
  · exact absurd h (by simp)
  rw [if_neg (by simp)] at h
  rw [Prod.mk.injEq] at h
  obtain ⟨h1, h2⟩ := h
  injection h1 with h1
  subst h1
  subst h2
  exact ⟨rfl, rfl⟩

/-- C9 witness: instantiated at the environment whose `NOTION_API_KEY` is the
empty string. -/
theorem unset_key_skips_notion_witness :
    rPlain.notion_url = none ∧ acts3.filter isNotionPost = [] :=
  unset_key_skips_notion envEmptyKey wOK "water" "hydrate-bot" rPlain acts3 rfl rfl

/-- C7: a run whose three fail-fast calls succeed issues a repository-creation
request that is public, auto-initialized, named `project_name`, and described
by the first 100 characters of the idea, and issues exactly one file commit:
`README.md` carrying the expanded specification verbatim under the fixed
commit message. -/
theorem repo_and_readme_requests (env : Env) (w : World) (idea project_name : String)
    (create_notion_page : Bool) (developed_spec : String) (repo : Repo)
    (hc : w.claude (developPrompt idea) = Except.ok developed_spec)
    (hr : w.create_repo (repoRequest idea project_name) = Except.ok repo)
    (hf : w.create_file (readmeRequest developed_spec) = Except.ok ()) :
    Call.createRepo { name := project_name, description := "Project: " ++ idea.take 100,
                      priv := false, auto_init := true } ∈
      (develop_and_create_project env w idea project_name create_notion_page).snd ∧
    (develop_and_create_project env w idea project_name create_notion_page).snd.filter
        isCreateFile =
      [Call.createFile { path := "README.md", message := "Initial project specification",
                         content := developed_spec }] := by
  rw [develop_snd env w idea project_name create_notion_page developed_spec repo hc hr hf]
  constructor
  · simp [repoRequest]
  · have hnf : ((if create_notion_page && truthy env.NOTION_API_KEY then
        (create_notion_project_page env w idea project_name repo.html_url).snd
      else []).filter isCreateFile) = [] := by
      cases hb : (create_notion_page && truthy env.NOTION_API_KEY) with
      | false => simp
      | true =>
        rcases notion_trace_cases env w idea project_name repo.html_url with h0 | ⟨q, hq⟩
        · simp [h0]
        · simp [hq, isCreateFile]
    rw [List.filter_append, hnf]
    rfl

/-- C7 witness: instantiated at the all-success fixture. -/
theorem repo_and_readme_requests_witness :
    Call.createRepo { name := "hydrate-bot", description := "Project: " ++ "water".take 100,
                      priv := false, auto_init := true } ∈
      (develop_and_create_project envFull wOK "water" "hydrate-bot" true).snd ∧
    (develop_and_create_project envFull wOK "water" "hydrate-bot" true).snd.filter
        isCreateFile =
      [Call.createFile { path := "README.md", message := "Initial project specification",
                         content := "SPEC" }] :=
  repo_and_readme_requests envFull wOK "water" "hydrate-bot" true "SPEC" repoOK rfl rfl rfl

/-- C8: when both Notion variables are truthy, the single POST issued by
`create_notion_project_page` titles the page with the project name, sets the
status property to "In Progress", attaches the repository URL as the url
property, and seeds the body with exactly a heading block followed by a
paragraph block carrying the raw idea text. -/
theorem notion_request_shape (env : Env) (w : World)
    (idea project_name github_url : String)
    (hkey : truthy env.NOTION_API_KEY = true)
    (hdb : truthy env.NOTION_DATABASE_ID = true) :
    (create_notion_project_page env w idea project_name github_url).snd =
      [Call.notionPost
        { endpoint := "https://api.notion.com/v1/pages"
          authorization := "Bearer " ++ env.NOTION_API_KEY.getD ""
          content_type := "application/json"
          notion_version := "2022-06-28"
          database_id := env.NOTION_DATABASE_ID.getD ""
          title := project_name
          status_name := "In Progress"
          github := github_url
          children := [Block.heading_2 "Project Idea", Block.paragraph idea] }] := by
  rcases hq : w.notion_post (notionRequest (env.NOTION_API_KEY.getD "")
      (env.NOTION_DATABASE_ID.getD "") idea project_name github_url) with e | resp <;>
    (simp only [notionRequest] at hq;
     simp [create_notion_project_page, hkey, hdb, notionRequest, hq])

/-- C8 witness: instantiated at the configured fixture environment. -/
theorem notion_request_shape_witness :
    (create_notion_project_page envFull wOK "water" "hydrate-bot"
      "https://github.com/u/hydrate-bot").snd =
      [Call.notionPost
        { endpoint := "https://api.notion.com/v1/pages"
          authorization := "Bearer " ++ envFull.NOTION_API_KEY.getD ""
          content_type := "application/json"
          notion_version := "2022-06-28"
          database_id := envFull.NOTION_DATABASE_ID.getD ""
          title := "hydrate-bot"
          status_name := "In Progress"
          github := "https://github.com/u/hydrate-bot"
          children := [Block.heading_2 "Project Idea", Block.paragraph "water"] }] :=
  notion_request_shape envFull wOK "water" "hydrate-bot"
    "https://github.com/u/hydrate-bot" rfl rfl

/-- C10: `create_notion_project_page` treats the POST as successful exactly
when the status code is 200: any other status (201 included) yields the
diagnostic string with the code, a 200 response whose JSON object lacks a url
member yields the fallback string, and a 200 response with a url member yields
that url. -/
theorem success_iff_status_200 (env : Env) (w : World)
    (idea project_name github_url : String) (resp : Response)
    (hkey : truthy env.NOTION_API_KEY = true)
    (hdb : truthy env.NOTION_DATABASE_ID = true)
    (hp : w.notion_post (notionRequest (env.NOTION_API_KEY.getD "")
      (env.NOTION_DATABASE_ID.getD "") idea project_name github_url) = Except.ok resp) :
    (resp.status_code ≠ 200 →
      (create_notion_project_page env w idea project_name github_url).fst =
        Except.ok ("Error creating Notion page: " ++ toString resp.status_code)) ∧
    (resp.status_code = 200 → resp.body = ResponseBody.jsonObject none →
      (create_notion_project_page env w idea project_name github_url).fst =
        Except.ok "Page created but URL not available") ∧
    (∀ u, resp.status_code = 200 → resp.body = ResponseBody.jsonObject (some u) →
      (create_notion_project_page env w idea project_name github_url).fst =
        Except.ok u) := by
  refine ⟨fun hs => ?_, fun hs hb => ?_, fun u hs hb => ?_⟩
  · simp [create_notion_project_page, hkey, hdb, hp, hs]
  · simp [create_notion_project_page, hkey, hdb, hp, hs, hb]
  · simp [create_notion_project_page, hkey, hdb, hp, hs, hb]

/-- C10 witness: instantiated at the fixture whose POST returns 201, a
non-success code for this client despite being a 2xx status. -/
theorem success_iff_status_200_witness :
    (resp201.status_code ≠ 200 →
      (create_notion_project_page envFull w201 "water" "hydrate-bot"
        "https://github.com/u/hydrate-bot").fst =
        Except.ok ("Error creating Notion page: " ++ toString resp201.status_code)) ∧
    (resp201.status_code = 200 → resp201.body = ResponseBody.jsonObject none →
      (create_notion_project_page envFull w201 "water" "hydrate-bot"
        "https://github.com/u/hydrate-bot").fst =
        Except.ok "Page created but URL not available") ∧
    (∀ u, resp201.status_code = 200 → resp201.body = ResponseBody.jsonObject (some u) →
      (create_notion_project_page envFull w201 "water" "hydrate-bot"
        "https://github.com/u/hydrate-bot").fst = Except.ok u) :=
  success_iff_status_200 envFull w201 "water" "hydrate-bot"
    "https://github.com/u/hydrate-bot" resp201 rfl rfl rfl
